import Mathlib

/-!
Shallow embedding of goserve's `server/api.go` (package `server`): the
stat resolver (`statsEndpoint`), the response encoder (`handleEndpoint`
and the `MarshalJSON` methods), and the request router / middleware
composer (`ServeAPI`).

Modelling conventions:
- The filesystem is a value of type `FS`: the outcomes of `os.Stat` and
  `os.OpenFile(path, O_RDONLY, 0444)` as functions of the path string.
  Per the documentation of `os.Stat` / `os.OpenFile`, a failure is always
  an `*os.PathError`; its inner error is modelled by `OSErr`.
- `time.Time` values are carried as the RFC3339 text that
  `encoding/json` renders for them (the code never computes with times).
- Go byte-indexed slicing `s[n:]` is modelled by dropping `n` characters;
  the code only slices off a prefix it has just matched with
  `strings.HasPrefix`, where the byte count of the prefix corresponds
  exactly to its character count being dropped.
- JSON output reproduces `encoding/json` output byte for byte for the
  values at hand: struct fields in declaration order, `Encoder.Encode`
  appending a newline, strings escaped with the default HTML escaping.
-/

/-- Go `strings.TrimRight(s, "/")`: drop all trailing slash characters. -/
def trimRightSlash (s : String) : String :=
  String.mk ((s.data.reverse.dropWhile (fun c => c = '/')).reverse)

/-- Go `strings.HasPrefix s pre` (byte prefix = character prefix for the
valid UTF-8 strings involved). -/
def startsWithStr (s pre : String) : Bool :=
  pre.data.isPrefixOf s.data

/-- Go `s[n:]` for `n` the byte length of a matched character prefix. -/
def dropStr (s : String) (n : Nat) : String :=
  String.mk (s.data.drop n)

/-- Go `len` of a string whose characters are all ASCII (true of every
string the router measures: the configured base path plus a slash). -/
def strLen (s : String) : Nat :=
  s.data.length

/-- Lower-case hexadecimal digit, as used by `encoding/json` for
control-character escapes. -/
def hexDigit (n : Nat) : Char :=
  if n < 10 then Char.ofNat (48 + n) else Char.ofNat (87 + n)

/-- One character of `encoding/json` string escaping (default encoder
settings, HTML escaping on). -/
def jsonEscapeChar (c : Char) : List Char :=
  if c = '"' then ['\\', '"']
  else if c = '\\' then ['\\', '\\']
  else if c = '\n' then ['\\', 'n']
  else if c = '\r' then ['\\', 'r']
  else if c = '\t' then ['\\', 't']
  else if c = '<' then ['\\', 'u', '0', '0', '3', 'c']
  else if c = '>' then ['\\', 'u', '0', '0', '3', 'e']
  else if c = '&' then ['\\', 'u', '0', '0', '2', '6']
  else if c.toNat < 32 then
    ['\\', 'u', '0', '0', hexDigit (c.toNat / 16), hexDigit (c.toNat % 16)]
  else [c]

/-- A JSON string literal as `encoding/json` renders it. -/
def jsonQuote (s : String) : String :=
  "\"" ++ String.mk ((s.data.map jsonEscapeChar).flatten) ++ "\""

/-- Render a JSON object from an ordered field list whose values are
already rendered. Matches `encoding/json` output for a Go struct. -/
def renderJSONObject (fields : List (String × String)) : String :=
  "\x7b" ++ String.intercalate "," (fields.map (fun kv => jsonQuote kv.1 ++ ":" ++ kv.2)) ++ "\x7d"

/-- File mode classification as the resolver reads it:
`stat.Mode().IsRegular()`, `stat.Mode().IsDir()`, or anything else
(symlink, device, socket, ...). -/
inductive FileMode where
  | regular
  | directory
  | other
deriving DecidableEq

/-- Result of a successful `os.Stat`: the fields the code reads
(`Name()`, `Size()`, `ModTime()`, `Mode()`). -/
structure StatInfo where
  name : String
  size : Int
  mtime : String
  mode : FileMode
deriving DecidableEq

/-- Inner error of an `*os.PathError` (`perr.Err`). `os.IsNotExist`
recognises `enoent`; the code's permission test compares the error text
with `os.ErrPermission.Error()`, i.e. "permission denied". -/
inductive OSErr where
  | enoent
  | eacces
  | otherErr (msg : String)
deriving DecidableEq

/-- The text `perr.Err.Error()` produces. -/
def OSErr.errString : OSErr → String
  | .enoent => "no such file or directory"
  | .eacces => "permission denied"
  | .otherErr m => m

/-- Go `os.IsNotExist` applied to the stat error (it unwraps the
`*os.PathError` and tests for ENOENT). -/
def isNotExist : OSErr → Bool
  | .enoent => true
  | _ => false

/-- The text of `os.ErrPermission.Error()`. -/
def errPermissionText : String := "permission denied"

/-- The filesystem as `statsEndpoint` observes it: outcome of
`os.Stat path` and of `os.OpenFile(path, os.O_RDONLY, 0444)`. -/
structure FS where
  stat : String → Except OSErr StatInfo
  openFile : String → Except OSErr Unit

/-- `*os.PathError` as returned by `os.Stat` (op "stat") or
`os.OpenFile` (op "open"). -/
structure PathError where
  op : String
  path : String
  err : OSErr
deriving DecidableEq

/-- `(*os.PathError).Error()`: op + " " + path + ": " + inner error. -/
def PathError.errorText (e : PathError) : String :=
  e.op ++ " " ++ e.path ++ ": " ++ e.err.errString

/-- Go struct `FileStat` from `server/api.go`. -/
structure FileStat where
  name : String
  path : String
  size : Int
  mtime : String
deriving DecidableEq

/-- Go struct `DirStat` from `server/api.go`. -/
structure DirStat where
  name : String
  path : String
  mtime : String
deriving DecidableEq

/-- Go struct `StatError` from `server/api.go`. -/
structure StatError where
  code : Nat
  path : String
deriving DecidableEq

/-- The part of `net/http.StatusText` this package can reach (the status
codes it uses); every other argument yields "" exactly as `StatusText`
does for unassigned codes. -/
def statusText (code : Nat) : String :=
  if code = 200 then "OK"
  else if code = 301 then "Moved Permanently"
  else if code = 403 then "Forbidden"
  else if code = 404 then "Not Found"
  else if code = 500 then "Internal Server Error"
  else ""

/-- `StatError.Message`: status text looked up from the code, with
"unknown error" when the lookup comes back empty. -/
def StatError.message (err : StatError) : String :=
  let msg := statusText err.code
  if msg = "" then "unknown error" else msg

/-- `StatError.MarshalJSON` field list (declaration order of the
anonymous struct: Status, Code, Path, Message). -/
def StatError.jsonFields (err : StatError) : List (String × String) :=
  [("status", jsonQuote "error"),
   ("code", toString err.code),
   ("path", jsonQuote err.path),
   ("message", jsonQuote err.message)]

/-- `StatError.MarshalJSON` output. -/
def StatError.marshalJSON (err : StatError) : String :=
  renderJSONObject err.jsonFields

/-- `FileStat.MarshalJSON` field list (Type, Name, Path, Size, MTime). -/
def FileStat.jsonFields (f : FileStat) : List (String × String) :=
  [("type", jsonQuote "file"),
   ("name", jsonQuote f.name),
   ("path", jsonQuote f.path),
   ("size", toString f.size),
   ("mtime", jsonQuote f.mtime)]

/-- `FileStat.MarshalJSON` output. -/
def FileStat.marshalJSON (f : FileStat) : String :=
  renderJSONObject f.jsonFields

/-- `DirStat.MarshalJSON` field list (Type, Name, Path, MTime). -/
def DirStat.jsonFields (d : DirStat) : List (String × String) :=
  [("type", jsonQuote "directory"),
   ("name", jsonQuote d.name),
   ("path", jsonQuote d.path),
   ("mtime", jsonQuote d.mtime)]

/-- `DirStat.MarshalJSON` output. -/
def DirStat.marshalJSON (d : DirStat) : String :=
  renderJSONObject d.jsonFields

/-- The non-nil values `statsEndpoint` can assign to its `stats`
result. -/
inductive Stats where
  | file (f : FileStat)
  | dir (d : DirStat)
deriving DecidableEq

/-- Discriminator value of a `Stats`: the "type" field of its JSON. -/
def Stats.typeTag : Stats → String
  | .file _ => "file"
  | .dir _ => "directory"

/-- JSON field list of a `Stats` value. -/
def Stats.jsonFields : Stats → List (String × String)
  | .file f => f.jsonFields
  | .dir d => d.jsonFields

/-- The non-nil errors `statsEndpoint` can return: a classified
`*StatError`, or the unclassified `*os.PathError` from stat/open. -/
inductive EndpointErr where
  | statError (e : StatError)
  | osError (e : PathError)
deriving DecidableEq

/-- `statsEndpoint` from `server/api.go`: stat the path, classify
not-exist as 404 and permission as 403, probe regular files with a
read-only open (permission failure again 403), build `FileStat` /
`DirStat` descriptors, and fall through returning neither for any
other mode. Returns the pair (stats, err) of the Go named results. -/
def statsEndpoint (fs : FS) (path : String) : Option Stats × Option EndpointErr :=
  match fs.stat path with
  | .error e =>
    if isNotExist e then
      (none, some (.statError ⟨404, path⟩))
    else if e.errString = errPermissionText then
      (none, some (.statError ⟨403, path⟩))
    else
      (none, some (.osError ⟨"stat", path, e⟩))
  | .ok st =>
    match st.mode with
    | .regular =>
      match fs.openFile path with
      | .error e =>
        if e.errString = errPermissionText then
          (none, some (.statError ⟨403, path⟩))
        else
          (none, some (.osError ⟨"open", path, e⟩))
      | .ok _ =>
        (some (.file ⟨st.name, path, st.size, st.mtime⟩), none)
    | .directory =>
      (some (.dir ⟨st.name, path, st.mtime⟩), none)
    | .other =>
      (none, none)

/-- An HTTP response as the handlers write it: status code, headers
set, body bytes. -/
structure HTTPResponse where
  status : Nat
  headers : List (String × String)
  body : String
deriving DecidableEq

/-- The single header every API response sets. -/
def jsonContentType : List (String × String) :=
  [("Content-Type", "application/json")]

/-- `json.Encoder.Encode` of the `resp` result value: `null` for the
nil interface, otherwise the value's `MarshalJSON`; a newline is
appended by `Encode` itself (see `handleEndpoint`). -/
def encodeStats : Option Stats → String
  | none => "null"
  | some (.file f) => f.marshalJSON
  | some (.dir d) => d.marshalJSON

/-- The anonymous error envelope struct used for unclassified errors
and for the router's 404 (fields Code, Status, Message). -/
def genericEnvelope (code : Nat) (message : String) : String :=
  renderJSONObject
    [("code", toString code),
     ("status", jsonQuote "error"),
     ("message", jsonQuote message)]

/-- `handleEndpoint` from `server/api.go`, applied to an endpoint and
the request's URL path: encode a `*StatError` with its own code, any
other error as a 500 envelope carrying the raw error text, and a
success as status 200 (Go's implicit status on first write) with the
JSON-encoded result. `Encode` appends a newline to every body. -/
def handleEndpoint (endpoint : String → Option Stats × Option EndpointErr)
    (urlPath : String) : HTTPResponse :=
  let r := endpoint urlPath
  match r.2 with
  | some (.statError serr) =>
    ⟨serr.code, jsonContentType, serr.marshalJSON ++ "\n"⟩
  | some (.osError perr) =>
    ⟨500, jsonContentType, genericEnvelope 500 perr.errorText ++ "\n"⟩
  | none =>
    ⟨200, jsonContentType, encodeStats r.1 ++ "\n"⟩

/-- An incoming request as the middleware reads it: `r.URL.Path` and
`r.Header.Get("Content-Type")` (the latter only feeds the reserved
no-op sniff). -/
structure Request where
  path : String
  contentType : String
deriving DecidableEq

/-- Outcome of the routing decision in the handler `ServeAPI` builds:
a 301 redirect, a response produced by the API itself, or deferral to
the inner handler with the (unmodified) request. -/
inductive RouterResult where
  | redirectR (location : String)
  | apiR (resp : HTTPResponse)
  | innerR (req : Request)
deriving DecidableEq

/-- The router's generic 404 for unknown sub-endpoints. -/
def routeNotFoundResponse : HTTPResponse :=
  ⟨404, jsonContentType, genericEnvelope 404 "not a valid API endpoint" ++ "\n"⟩

/-- The routing logic of the handler returned by `ServeAPI path root`
(the `root http.FileSystem` argument is unused by the code): normalize
the base path, redirect an exact match to the slashed form, strip the
base prefix and trailing slashes, dispatch `stats/` to
`handleEndpoint statsEndpoint`, answer 404 for other sub-paths, and
otherwise defer to the inner handler (the content-type sniff before
that deferral is an empty no-op in the code). -/
def serveAPIRoute (basePath : String) (fs : FS) (req : Request) : RouterResult :=
  let path := trimRightSlash basePath
  let pathWithSlash := path ++ "/"
  let pathLen := strLen pathWithSlash
  if req.path = path then
    .redirectR pathWithSlash
  else if startsWithStr req.path pathWithSlash then
    let stripped := trimRightSlash (dropStr req.path pathLen)
    if startsWithStr stripped "stats/" then
      .apiR (handleEndpoint (statsEndpoint fs) (dropStr stripped 6))
    else
      .apiR routeNotFoundResponse
  else
    .innerR req

/-- Result of running the composed middleware around a concrete inner
handler: distinguishes responses written by the API layer from the
inner handler's own response. -/
inductive MWResult where
  | redirect (location : String)
  | api (resp : HTTPResponse)
  | inner (resp : HTTPResponse)
deriving DecidableEq

/-- The middleware returned by `ServeAPI`, composed with an inner
handler. -/
def runServeAPI (basePath : String) (fs : FS) (innerH : Request → HTTPResponse)
    (req : Request) : MWResult :=
  match serveAPIRoute basePath fs req with
  | .redirectR loc => .redirect loc
  | .apiR resp => .api resp
  | .innerR r => .inner (innerH r)

/-- Filesystem of the spec's concrete scenario: exactly one entry, the
regular file `/tmp/readme.txt`, 1024 bytes, modified
2023-01-01T00:00:00Z, readable; every other path is absent. -/
def fsReadme : FS where
  stat := fun p =>
    if p = "/tmp/readme.txt" then
      .ok ⟨"readme.txt", 1024, "2023-01-01T00:00:00Z", .regular⟩
    else .error .enoent
  openFile := fun p =>
    if p = "/tmp/readme.txt" then .ok () else .error .enoent

/-- Filesystem holding one entry that is neither a regular file nor a
directory (a unix socket). -/
def fsSock : FS where
  stat := fun p =>
    if p = "/tmp/app.sock" then
      .ok ⟨"app.sock", 0, "2023-01-01T00:00:00Z", .other⟩
    else .error .enoent
  openFile := fun _ => .error .enoent

/-- Filesystem whose stat calls all fail with an unclassified I/O
error (neither not-exist nor permission). -/
def fsIOErr : FS where
  stat := fun _ => .error (.otherErr "input/output error")
  openFile := fun _ => .error (.otherErr "input/output error")

/-- Filesystem with a regular file whose stat succeeds but whose
read-only open is denied. -/
def fsPermOpen : FS where
  stat := fun p =>
    if p = "/tmp/secret.txt" then
      .ok ⟨"secret.txt", 42, "2023-01-01T00:00:00Z", .regular⟩
    else .error .enoent
  openFile := fun _ => .error .eacces

/-- Empty filesystem: every stat fails with not-exist. -/
def fsEmpty : FS where
  stat := fun _ => .error .enoent
  openFile := fun _ => .error .enoent

/-- Filesystem holding one directory, `/var/www`. -/
def fsDir : FS where
  stat := fun p =>
    if p = "/var/www" then
      .ok ⟨"www", 4096, "2023-01-01T00:00:00Z", .directory⟩
    else .error .enoent
  openFile := fun _ => .error .enoent

/-- A concrete inner handler used to exercise the pass-through case. -/
def innerHello : Request → HTTPResponse :=
  fun _ => ⟨200, [], "hello"⟩

/-- A string that starts with `p ++ "/"` is strictly longer than `p`,
hence differs from it. -/
theorem ne_of_startsWith_slash (s p : String)
    (h : startsWithStr s (p ++ "/") = true) : s ≠ p := by
  intro hs
  subst hs
  unfold startsWithStr at h
  rw [List.isPrefixOf_iff_prefix] at h
  have hlen := h.length_le
  rw [String.data_append, List.length_append] at hlen
  have h1 : ("/" : String).data.length = 1 := rfl
  omega

/-- C1: the spec's concrete scenario (base `/api`, regular file
`/tmp/readme.txt` of 1024 bytes, GET `/api/stats/tmp/readme.txt`)
claims a 200 response whose body echoes the absolute path
`/tmp/readme.txt`. On the code the router strips `stats/` and hands
the resolver the relative path `tmp/readme.txt` (the TODO in
`statsEndpoint` admits the absolute path is never built), so against
the scenario's filesystem the response is a 404 echoing the relative
path, not the claimed 200 file body. -/
theorem c1_stats_path_not_absolute :
    serveAPIRoute "/api" fsReadme ⟨"/api/stats/tmp/readme.txt", ""⟩ =
      .apiR ⟨404, jsonContentType,
        "\x7b\"status\":\"error\",\"code\":404,\"path\":\"tmp/readme.txt\",\"message\":\"Not Found\"\x7d\n"⟩ := by
  decide

/-- C2: when stat fails with an error that is neither not-exist nor
permission, `statsEndpoint` terminates normally returning the error
unclassified (no descriptor, no `StatError`), and the encoder writes
an HTTP 500 envelope with the raw `*os.PathError` text. -/
theorem c2_unclassified_stat_error (fs : FS) (p : String) (e : OSErr)
    (hstat : fs.stat p = .error e)
    (hnotexist : isNotExist e = false)
    (hnotperm : e.errString ≠ errPermissionText) :
    statsEndpoint fs p = (none, some (.osError ⟨"stat", p, e⟩)) ∧
    handleEndpoint (statsEndpoint fs) p =
      ⟨500, jsonContentType,
        genericEnvelope 500 (PathError.errorText ⟨"stat", p, e⟩) ++ "\n"⟩ := by
  have h1 : statsEndpoint fs p = (none, some (.osError ⟨"stat", p, e⟩)) := by
    unfold statsEndpoint
    rw [hstat]
    simp [hnotexist, hnotperm]
  exact ⟨h1, by simp [handleEndpoint, h1]⟩

theorem c2_witness :
    statsEndpoint fsIOErr "/mnt/data" =
      (none, some (.osError ⟨"stat", "/mnt/data", .otherErr "input/output error"⟩)) ∧
    handleEndpoint (statsEndpoint fsIOErr) "/mnt/data" =
      ⟨500, jsonContentType,
        genericEnvelope 500
          (PathError.errorText ⟨"stat", "/mnt/data", .otherErr "input/output error"⟩) ++ "\n"⟩ :=
  c2_unclassified_stat_error fsIOErr "/mnt/data" (.otherErr "input/output error")
    rfl rfl (by decide)

/-- C3 counterexample: at a concrete path whose entry is neither a
regular file nor a directory, the resolver indeed returns neither a
descriptor nor an error, but the response body is NOT empty: the
encoder serializes the nil result as the JSON literal `null` plus the
newline `Encode` appends. -/
theorem c3_counterexample :
    statsEndpoint fsSock "/tmp/app.sock" = (none, none) ∧
    ¬ (handleEndpoint (statsEndpoint fsSock) "/tmp/app.sock").body = "" := by
  decide

/-- C3 amended: for every path whose stat succeeds with an entry that
is neither a regular file nor a directory, `statsEndpoint` returns
neither a descriptor nor an error, and the response is HTTP 200 with
Content-Type application/json and body the JSON literal `null`
followed by a newline (not an empty body). -/
theorem c3_other_mode_null_body (fs : FS) (p : String) (st : StatInfo)
    (hstat : fs.stat p = .ok st) (hmode : st.mode = .other) :
    statsEndpoint fs p = (none, none) ∧
    handleEndpoint (statsEndpoint fs) p = ⟨200, jsonContentType, "null\n"⟩ := by
  have h1 : statsEndpoint fs p = (none, none) := by
    unfold statsEndpoint
    rw [hstat]
    simp [hmode]
  exact ⟨h1, by simp [handleEndpoint, h1, encodeStats]⟩

theorem c3_witness :
    statsEndpoint fsSock "/tmp/app.sock" = (none, none) ∧
    handleEndpoint (statsEndpoint fsSock) "/tmp/app.sock" =
      ⟨200, jsonContentType, "null\n"⟩ :=
  c3_other_mode_null_body fsSock "/tmp/app.sock"
    ⟨"app.sock", 0, "2023-01-01T00:00:00Z", .other⟩ rfl rfl

/-- C4: for a path that stats as a regular file but whose read-only
open probe is denied by permissions, the resolver yields
`StatError 403 path` and no `FileStat`, and the response status is
403, never 200. -/
theorem c4_open_permission_denied (fs : FS) (p : String) (st : StatInfo) (e : OSErr)
    (hstat : fs.stat p = .ok st) (hmode : st.mode = .regular)
    (hopen : fs.openFile p = .error e)
    (hperm : e.errString = errPermissionText) :
    statsEndpoint fs p = (none, some (.statError ⟨403, p⟩)) ∧
    handleEndpoint (statsEndpoint fs) p =
      ⟨403, jsonContentType, StatError.marshalJSON ⟨403, p⟩ ++ "\n"⟩ ∧
    (handleEndpoint (statsEndpoint fs) p).status ≠ 200 := by
  have h1 : statsEndpoint fs p = (none, some (.statError ⟨403, p⟩)) := by
    unfold statsEndpoint
    rw [hstat]
    simp [hmode, hopen, hperm]
  have h2 : handleEndpoint (statsEndpoint fs) p =
      ⟨403, jsonContentType, StatError.marshalJSON ⟨403, p⟩ ++ "\n"⟩ := by
    simp [handleEndpoint, h1]
  exact ⟨h1, h2, by simp [h2]⟩

theorem c4_witness :
    statsEndpoint fsPermOpen "/tmp/secret.txt" =
      (none, some (.statError ⟨403, "/tmp/secret.txt"⟩)) ∧
    handleEndpoint (statsEndpoint fsPermOpen) "/tmp/secret.txt" =
      ⟨403, jsonContentType,
        StatError.marshalJSON ⟨403, "/tmp/secret.txt"⟩ ++ "\n"⟩ ∧
    (handleEndpoint (statsEndpoint fsPermOpen) "/tmp/secret.txt").status ≠ 200 :=
  c4_open_permission_denied fsPermOpen "/tmp/secret.txt"
    ⟨"secret.txt", 42, "2023-01-01T00:00:00Z", .regular⟩ .eacces
    rfl rfl rfl rfl

/-- C5: for a path whose stat fails with a not-exist error, the
resolver yields `StatError 404 path`; the message is looked up from
the status code ("Not Found" for 404, falling back to "unknown error"
for a code the table does not know), and the response is HTTP 404
carrying that envelope. -/
theorem c5_not_exist_404 (fs : FS) (p : String) (e : OSErr)
    (hstat : fs.stat p = .error e) (hne : isNotExist e = true) :
    statsEndpoint fs p = (none, some (.statError ⟨404, p⟩)) ∧
    StatError.message ⟨404, p⟩ = "Not Found" ∧
    StatError.message ⟨999, p⟩ = "unknown error" ∧
    StatError.jsonFields ⟨404, p⟩ =
      [("status", jsonQuote "error"), ("code", "404"),
       ("path", jsonQuote p), ("message", jsonQuote "Not Found")] ∧
    handleEndpoint (statsEndpoint fs) p =
      ⟨404, jsonContentType, StatError.marshalJSON ⟨404, p⟩ ++ "\n"⟩ := by
  have h1 : statsEndpoint fs p = (none, some (.statError ⟨404, p⟩)) := by
    unfold statsEndpoint
    rw [hstat]
    simp [hne]
  have h404 : toString (404 : Nat) = "404" := rfl
  refine ⟨h1, rfl, rfl, ?_, ?_⟩
  · simp [StatError.jsonFields, StatError.message, statusText, h404]
  · simp [handleEndpoint, h1]

theorem c5_witness :
    statsEndpoint fsEmpty "/nope" = (none, some (.statError ⟨404, "/nope"⟩)) ∧
    StatError.message ⟨404, "/nope"⟩ = "Not Found" ∧
    StatError.message ⟨999, "/nope"⟩ = "unknown error" ∧
    StatError.jsonFields ⟨404, "/nope"⟩ =
      [("status", jsonQuote "error"), ("code", "404"),
       ("path", jsonQuote "/nope"), ("message", jsonQuote "Not Found")] ∧
    handleEndpoint (statsEndpoint fsEmpty) "/nope" =
      ⟨404, jsonContentType, StatError.marshalJSON ⟨404, "/nope"⟩ ++ "\n"⟩ :=
  c5_not_exist_404 fsEmpty "/nope" .enoent rfl rfl

/-- C6: every successful resolution is encoded as HTTP 200 with
Content-Type application/json; the body's first field is the
discriminator "type" with value "file" or "directory" according to the
descriptor; a directory body carries exactly the fields type, name,
path, mtime — no size field. -/
theorem c6_success_discriminator (fs : FS) (p : String) (s : Stats)
    (h : statsEndpoint fs p = (some s, none)) :
    handleEndpoint (statsEndpoint fs) p =
      ⟨200, jsonContentType, renderJSONObject s.jsonFields ++ "\n"⟩ ∧
    s.jsonFields.head? = some ("type", jsonQuote s.typeTag) ∧
    (s.typeTag = "file" ∨ s.typeTag = "directory") ∧
    (∀ d : DirStat, s = .dir d →
      s.jsonFields.map Prod.fst = ["type", "name", "path", "mtime"] ∧
      "size" ∉ s.jsonFields.map Prod.fst) := by
  refine ⟨?_, ?_, ?_, ?_⟩
  · cases s with
    | file f =>
      simp [handleEndpoint, h, encodeStats, FileStat.marshalJSON, Stats.jsonFields]
    | dir d =>
      simp [handleEndpoint, h, encodeStats, DirStat.marshalJSON, Stats.jsonFields]
  · cases s <;> rfl
  · cases s with
    | file f => exact Or.inl rfl
    | dir d => exact Or.inr rfl
  · intro d hd
    subst hd
    exact ⟨rfl, by simp [Stats.jsonFields, DirStat.jsonFields]⟩

theorem c6_witness :
    handleEndpoint (statsEndpoint fsDir) "/var/www" =
      ⟨200, jsonContentType,
        renderJSONObject (Stats.dir ⟨"www", "/var/www", "2023-01-01T00:00:00Z"⟩).jsonFields ++ "\n"⟩ ∧
    (Stats.dir ⟨"www", "/var/www", "2023-01-01T00:00:00Z"⟩).jsonFields.head? =
      some ("type", jsonQuote "directory") ∧
    (Stats.dir ⟨"www", "/var/www", "2023-01-01T00:00:00Z"⟩).jsonFields.map Prod.fst =
      ["type", "name", "path", "mtime"] ∧
    "size" ∉ (Stats.dir ⟨"www", "/var/www", "2023-01-01T00:00:00Z"⟩).jsonFields.map Prod.fst := by
  have h := c6_success_discriminator fsDir "/var/www"
    (.dir ⟨"www", "/var/www", "2023-01-01T00:00:00Z"⟩) rfl
  exact ⟨h.1, h.2.1,
    (h.2.2.2 ⟨"www", "/var/www", "2023-01-01T00:00:00Z"⟩ rfl).1,
    (h.2.2.2 ⟨"www", "/var/www", "2023-01-01T00:00:00Z"⟩ rfl).2⟩

/-- C7: a request path under the base prefix whose remainder, after
stripping the prefix and trailing slashes, does not start with
"stats/" gets the router's generic 404 envelope ("not a valid API
endpoint"); the result does not depend on the filesystem (the resolver
is never consulted) and is never a pass-through to the inner
handler. -/
theorem c7_unknown_subpath_404 (basePath : String) (fs : FS) (req : Request)
    (h1 : startsWithStr req.path (trimRightSlash basePath ++ "/") = true)
    (h2 : startsWithStr
        (trimRightSlash (dropStr req.path (strLen (trimRightSlash basePath ++ "/"))))
        "stats/" = false) :
    serveAPIRoute basePath fs req = .apiR routeNotFoundResponse ∧
    (∀ fs2 : FS, serveAPIRoute basePath fs2 req = .apiR routeNotFoundResponse) := by
  have hne : req.path ≠ trimRightSlash basePath := ne_of_startsWith_slash _ _ h1
  have hmain : ∀ fs2 : FS, serveAPIRoute basePath fs2 req = .apiR routeNotFoundResponse := by
    intro fs2
    unfold serveAPIRoute
    simp [hne, h1, h2]
  exact ⟨hmain fs, hmain⟩

theorem c7_witness :
    serveAPIRoute "/api" fsEmpty ⟨"/api/unknown", ""⟩ = .apiR routeNotFoundResponse ∧
    serveAPIRoute "/api" fsReadme ⟨"/api/unknown", ""⟩ = .apiR routeNotFoundResponse := by
  have h := c7_unknown_subpath_404 "/api" fsEmpty ⟨"/api/unknown", ""⟩
    (by decide) (by decide)
  exact ⟨h.1, h.2 fsReadme⟩

/-- C8: a request whose path neither equals the normalized base path
nor starts with base-path-plus-slash is passed through: the router
hands the inner handler the unmodified request and the middleware's
result is exactly the inner handler's response. -/
theorem c8_passthrough (basePath : String) (fs : FS)
    (innerH : Request → HTTPResponse) (req : Request)
    (h1 : req.path ≠ trimRightSlash basePath)
    (h2 : startsWithStr req.path (trimRightSlash basePath ++ "/") = false) :
    serveAPIRoute basePath fs req = .innerR req ∧
    runServeAPI basePath fs innerH req = .inner (innerH req) := by
  have h3 : serveAPIRoute basePath fs req = .innerR req := by
    unfold serveAPIRoute
    simp [h1, h2]
  exact ⟨h3, by simp [runServeAPI, h3]⟩

theorem c8_witness :
    serveAPIRoute "/api" fsReadme ⟨"/other/page", ""⟩ = .innerR ⟨"/other/page", ""⟩ ∧
    runServeAPI "/api" fsReadme innerHello ⟨"/other/page", ""⟩ =
      .inner (innerHello ⟨"/other/page", ""⟩) :=
  c8_passthrough "/api" fsReadme innerHello ⟨"/other/page", ""⟩
    (by decide) (by decide)

/-- C9: the resolver and the encoded response are deterministic in the
request path and the filesystem state: two identical stats requests
against the same filesystem yield identical outcomes and identical
JSON responses (logging is outside the model). -/
theorem c9_deterministic (fs : FS) (p1 p2 : String) (h : p1 = p2) :
    statsEndpoint fs p1 = statsEndpoint fs p2 ∧
    handleEndpoint (statsEndpoint fs) p1 = handleEndpoint (statsEndpoint fs) p2 := by
  subst h
  exact ⟨rfl, rfl⟩

theorem c9_witness :
    statsEndpoint fsReadme "/tmp/readme.txt" = statsEndpoint fsReadme "/tmp/readme.txt" ∧
    handleEndpoint (statsEndpoint fsReadme) "/tmp/readme.txt" =
      handleEndpoint (statsEndpoint fsReadme) "/tmp/readme.txt" :=
  c9_deterministic fsReadme "/tmp/readme.txt" "/tmp/readme.txt" rfl

/-- C10: every `StatError` the resolver produces has code 403 (message
"Forbidden") or 404 (message "Not Found"), and the encoder writes the
domain-error response with exactly that status code and envelope. -/
theorem c10_domain_errors_403_or_404 (fs : FS) (p : String) (se : StatError)
    (h : (statsEndpoint fs p).2 = some (.statError se)) :
    ((se.code = 403 ∧ se.message = "Forbidden") ∨
     (se.code = 404 ∧ se.message = "Not Found")) ∧
    handleEndpoint (statsEndpoint fs) p =
      ⟨se.code, jsonContentType, se.marshalJSON ++ "\n"⟩ := by
  obtain ⟨c, sp⟩ := se
  refine ⟨?_, by simp [handleEndpoint, h]⟩
  unfold statsEndpoint at h
  repeat' split at h
  all_goals simp_all
  all_goals obtain ⟨h1, h2⟩ := h
  all_goals subst h1
  all_goals first | exact Or.inl rfl | exact Or.inr rfl

theorem c10_witness :
    (((⟨404, "/nope"⟩ : StatError).code = 403 ∧
        (⟨404, "/nope"⟩ : StatError).message = "Forbidden") ∨
     ((⟨404, "/nope"⟩ : StatError).code = 404 ∧
        (⟨404, "/nope"⟩ : StatError).message = "Not Found")) ∧
    handleEndpoint (statsEndpoint fsEmpty) "/nope" =
      ⟨(⟨404, "/nope"⟩ : StatError).code, jsonContentType,
        (⟨404, "/nope"⟩ : StatError).marshalJSON ++ "\n"⟩ :=
  c10_domain_errors_403_or_404 fsEmpty "/nope" ⟨404, "/nope"⟩ rfl
